import Mathlib

/-!
Verification of the osgridref Go package (Ordnance Survey grid-reference /
lat-lon conversion library).

The embedding models:

* Go `float64` values flowing through `Cartesian.ToLatLon` and the datum
  conversion chain as `GFloat`: an exact real number together with the IEEE-754
  special values (signed infinity and NaN).  Finite arithmetic is exact (no
  rounding is modelled); the propagation rules for the special values follow
  the Go `math` package documentation.  This is the semantics that decides the
  degenerate-geometry branches of the code (the `math.IsNaN(cosβ)` test in
  `Cartesian.ToLatLon`), which are unobservable in a plain real-number model.
* Go `int` fields (`OsGridRef.Easting`/`Northing`) as `ℤ`.
* The wrapping helpers `Wrap90`/`Wrap180`, whose arithmetic is rational, over
  `ℚ` so that they stay executable.

Structure and field names follow the Go source (including the `Ellipseoid`
spelling).
-/

/-- Model of a Go `float64` under exact-real arithmetic extended with the
IEEE-754 special values.  `fin x` is the finite value `x`; `inf true` is `+∞`,
`inf false` is `-∞`.  Signed zero is not modelled (a finite zero behaves as
`+0`), which matches every use in this development. -/
inductive GFloat where
  | fin : ℝ → GFloat
  | inf : Bool → GFloat
  | nan : GFloat

namespace GFloat

/-- Addition, following IEEE-754 special-value rules. -/
noncomputable def add : GFloat → GFloat → GFloat
  | nan, _ => nan
  | _, nan => nan
  | fin x, fin y => fin (x + y)
  | fin _, inf b => inf b
  | inf b, fin _ => inf b
  | inf b, inf c => if b = c then inf b else nan

/-- Negation. -/
noncomputable def neg : GFloat → GFloat
  | nan => nan
  | fin x => fin (-x)
  | inf b => inf (!b)

/-- Subtraction. -/
noncomputable def sub (x y : GFloat) : GFloat := add x (neg y)

/-- Multiplication, following IEEE-754 special-value rules (`0 · ∞ = NaN`). -/
noncomputable def mul : GFloat → GFloat → GFloat
  | nan, _ => nan
  | _, nan => nan
  | fin x, fin y => fin (x * y)
  | fin x, inf b => if x = 0 then nan else if 0 < x then inf b else inf (!b)
  | inf b, fin y => if y = 0 then nan else if 0 < y then inf b else inf (!b)
  | inf b, inf c => inf (b = c)

/-- Division, following IEEE-754 special-value rules.  A finite zero divisor
behaves as `+0`: a nonzero finite numerator gives a signed infinity and a zero
numerator gives NaN. -/
noncomputable def div : GFloat → GFloat → GFloat
  | nan, _ => nan
  | _, nan => nan
  | fin x, fin y =>
      if y = 0 then (if x = 0 then nan else if 0 < x then inf true else inf false)
      else fin (x / y)
  | fin _, inf _ => fin 0
  | inf b, fin y => if 0 ≤ y then inf b else inf (!b)
  | inf _, inf _ => nan

/-- Model of Go `math.Sqrt`: NaN on negative (or NaN, or `-∞`) input. -/
noncomputable def sqrt : GFloat → GFloat
  | nan => nan
  | fin x => if x < 0 then nan else fin (Real.sqrt x)
  | inf b => if b then inf true else nan

/-- Model of Go `math.Sin`: NaN on non-finite input. -/
noncomputable def sin : GFloat → GFloat
  | fin x => fin (Real.sin x)
  | _ => nan

/-- Model of Go `math.Cos`: NaN on non-finite input. -/
noncomputable def cos : GFloat → GFloat
  | fin x => fin (Real.cos x)
  | _ => nan

/-- Model of Go `math.Tan`: NaN on non-finite input. -/
noncomputable def tan : GFloat → GFloat
  | fin x => fin (Real.tan x)
  | _ => nan

/-- Model of Go `math.Atan2 y x`, including its documented special cases
(with the unsigned-zero convention of this model: `Atan2(0, x≥0) = 0`,
`Atan2(0, x<0) = π`). -/
noncomputable def atan2 : GFloat → GFloat → GFloat
  | nan, _ => nan
  | _, nan => nan
  | fin y, fin x =>
      if y = 0 then (if 0 ≤ x then fin 0 else fin Real.pi)
      else if x = 0 then (if 0 < y then fin (Real.pi / 2) else fin (-(Real.pi / 2)))
      else if 0 < x then fin (Real.arctan (y / x))
      else if 0 < y then fin (Real.arctan (y / x) + Real.pi)
      else fin (Real.arctan (y / x) - Real.pi)
  | fin _, inf true => fin 0
  | fin y, inf false => if 0 ≤ y then fin Real.pi else fin (-Real.pi)
  | inf b, fin _ => if b then fin (Real.pi / 2) else fin (-(Real.pi / 2))
  | inf true, inf true => fin (Real.pi / 4)
  | inf true, inf false => fin (3 * Real.pi / 4)
  | inf false, inf true => fin (-(Real.pi / 4))
  | inf false, inf false => fin (-(3 * Real.pi / 4))

/-- Model of Go `math.IsNaN`. -/
def isNaN : GFloat → Bool
  | nan => true
  | _ => false

noncomputable instance : Add GFloat := ⟨add⟩

noncomputable instance : Neg GFloat := ⟨neg⟩

noncomputable instance : Sub GFloat := ⟨sub⟩

noncomputable instance : Mul GFloat := ⟨mul⟩

noncomputable instance : Div GFloat := ⟨div⟩

end GFloat

/-- Degree/radian conversion factor from the Go source: `math.Pi / 180.0`. -/
noncomputable def toRadians : ℝ := Real.pi / 180

/-- Radian/degree conversion factor from the Go source: `180.0 / math.Pi`. -/
noncomputable def toDegrees : ℝ := 180 / Real.pi

/-- Ellipsoid shape parameters, as in the Go source (`type Ellipseoid struct`,
spelling kept from the source). -/
structure Ellipseoid where
  a : ℝ
  b : ℝ
  f : ℝ

/-- A datum: name, ellipsoid, and the 7 Helmert parameters that transform
WGS-84 coordinates into this datum (tx, ty, tz metres, s ppm, rx, ry, rz
arc-seconds). -/
structure Datum where
  Name : String
  Ellipsoid : Ellipseoid
  Transform : Fin 7 → ℝ

/-- Alias for `Datum`, needed inside `Cartesian.*`/`LatLonEllipsoidalDatum.*`
declarations where the bare name `Datum` resolves to the structure field of the
same name. -/
abbrev Datum.T := Datum

/-- The `ellipsoids` table of the Go source. -/
noncomputable def ellipsoids : List (String × Ellipseoid) :=
  [("WGS84", ⟨6378137, 6356752.314245, 1 / 298.257223563⟩),
   ("Airy1830", ⟨6377563.396, 6356256.909, 1 / 299.3249646⟩),
   ("AiryModified", ⟨6377340.189, 6356034.448, 1 / 299.3249646⟩),
   ("Bessel1841", ⟨6377397.155, 6356078.962818, 1 / 299.1528128⟩),
   ("Clarke1866", ⟨6378206.4, 6356583.8, 1 / 294.978698214⟩),
   ("Clarke1880IGN", ⟨6378249.2, 6356515.0, 1 / 293.466021294⟩),
   ("GRS80", ⟨6378137, 6356752.314140, 1 / 298.257222101⟩),
   ("Intl1924", ⟨6378388, 6356911.946, 1 / 297⟩),
   ("WGS72", ⟨6378135, 6356750.5, 1 / 298.26⟩)]

/-- The WGS84 entry of the Go `Datums` map (and the package-level `WGS84`
variable). -/
noncomputable def WGS84 : Datum :=
  ⟨"WGS84", ⟨6378137, 6356752.314245, 1 / 298.257223563⟩, ![0, 0, 0, 0, 0, 0, 0]⟩

/-- The OSGB36 entry of the Go `Datums` map (and the package-level `OSGB36`
variable). -/
noncomputable def OSGB36 : Datum :=
  ⟨"OSGB36", ⟨6377563.396, 6356256.909, 1 / 299.3249646⟩,
   ![-446.448, 125.157, -542.060, 20.4894, -0.1502, -0.2470, -0.8421]⟩

/-- The Irl1975 entry of the Go `Datums` map. -/
noncomputable def Irl1975 : Datum :=
  ⟨"Irl1975", ⟨6377340.189, 6356034.448, 1 / 299.3249646⟩,
   ![-482.530, 130.596, -564.557, -8.150, 1.042, 0.214, 0.631]⟩

/-- The ED50 entry of the Go `Datums` map. -/
noncomputable def ED50 : Datum :=
  ⟨"ED50", ⟨6378388, 6356911.946, 1 / 297⟩, ![89.5, 93.8, 123.1, -1.2, 0.0, 0.0, 0.156]⟩

/-- The NAD27 entry of the Go `Datums` map. -/
noncomputable def NAD27 : Datum :=
  ⟨"NAD27", ⟨6378206.4, 6356583.8, 1 / 294.978698214⟩, ![8, -160, -176, 0, 0, 0, 0]⟩

/-- The Go zero value of the `Datum` struct: `applyTransform` builds its result
with a struct literal that omits the `Datum` field, which therefore holds this
zero value until `ConvertDatum` overwrites it. -/
noncomputable def zeroDatum : Datum := ⟨"", ⟨0, 0, 0⟩, fun _ => 0⟩

/-- Geocentric (ECEF) cartesian point tagged with a datum, as in the Go source
(`type Cartesian struct`). -/
structure Cartesian where
  X : GFloat
  Y : GFloat
  Z : GFloat
  Datum : Datum

/-- Latitude/longitude point on an ellipsoidal model earth, as in the Go source
(`type LatLonEllipsoidalDatum struct`). -/
structure LatLonEllipsoidalDatum where
  Lat : GFloat
  Lon : GFloat
  Height : GFloat
  Datum : Datum

/-- Embedding of Go `Cartesian.applyTransform`: the Helmert 7-parameter
transformation.  The Go result is a struct literal without a `Datum` field, so
the returned datum is the Go zero value. -/
noncomputable def Cartesian.applyTransform (c : Cartesian) (t : Fin 7 → ℝ) : Cartesian :=
  let x1 := c.X
  let y1 := c.Y
  let z1 := c.Z
  let tx := GFloat.fin (t 0)
  let ty := GFloat.fin (t 1)
  let tz := GFloat.fin (t 2)
  let s := GFloat.fin (t 3) / GFloat.fin 1e6 + GFloat.fin 1
  let rx := (GFloat.fin (t 4) / GFloat.fin 3600) * GFloat.fin toRadians
  let ry := (GFloat.fin (t 5) / GFloat.fin 3600) * GFloat.fin toRadians
  let rz := (GFloat.fin (t 6) / GFloat.fin 3600) * GFloat.fin toRadians
  let x2 := tx + x1 * s - y1 * rz + z1 * ry
  let y2 := ty + x1 * rz + y1 * s - z1 * rx
  let z2 := tz - x1 * ry + y1 * rx + z1 * s
  { X := x2, Y := y2, Z := z2, Datum := zeroDatum }

/-- Embedding of Go `Cartesian.ConvertDatum`: converts a cartesian coordinate
to a new datum, routing through WGS84.  The three guarded branches mirror the
source's `if`/`else if`/`else` assignment of `oldCartesian`/`transform`
followed by the single `applyTransform` call and datum overwrite. -/
noncomputable def Cartesian.ConvertDatum (c : Cartesian) (toDatum : Datum.T) : Cartesian :=
  if c.Datum.Name = toDatum.Name then c
  else if c.Datum.Name = "WGS84" then
    { Cartesian.applyTransform c toDatum.Transform with Datum := toDatum }
  else if _h : toDatum.Name = "WGS84" then
    { Cartesian.applyTransform c (fun i => -(c.Datum.Transform i)) with Datum := toDatum }
  else
    { Cartesian.applyTransform (Cartesian.ConvertDatum c WGS84) toDatum.Transform with
        Datum := toDatum }
termination_by (if toDatum.Name = "WGS84" then 0 else 1)
decreasing_by simp_all [WGS84]

/-- Embedding of Go `LatLonEllipsoidalDatum.ToCartesian`: geodetic to
geocentric conversion on the point's own datum. -/
noncomputable def LatLonEllipsoidalDatum.ToCartesian (l : LatLonEllipsoidalDatum) : Cartesian :=
  let ellipsoid := l.Datum.Ellipsoid
  let φ := l.Lat * GFloat.fin toRadians
  let lam := l.Lon * GFloat.fin toRadians
  let h := l.Height
  let a := GFloat.fin ellipsoid.a
  let f := GFloat.fin ellipsoid.f
  let sinφ := GFloat.sin φ
  let cosφ := GFloat.cos φ
  let sinlam := GFloat.sin lam
  let coslam := GFloat.cos lam
  let eSq := GFloat.fin 2 * f - f * f
  let ν := a / GFloat.sqrt (GFloat.fin 1 - eSq * sinφ * sinφ)
  let x := (ν + h) * cosφ * coslam
  let y := (ν + h) * cosφ * sinlam
  let z := (ν * (GFloat.fin 1 - eSq) + h) * sinφ
  { X := x, Y := y, Z := z, Datum := l.Datum }

/-- Embedding of Go `Cartesian.ToLatLon`: geocentric to geodetic conversion by
Bowring's 1985 formulation, including the `math.IsNaN(cosβ)` guard of the
source. -/
noncomputable def Cartesian.ToLatLon (c : Cartesian) : LatLonEllipsoidalDatum :=
  let x := c.X
  let y := c.Y
  let z := c.Z
  let a := GFloat.fin c.Datum.Ellipsoid.a
  let b := GFloat.fin c.Datum.Ellipsoid.b
  let f := GFloat.fin c.Datum.Ellipsoid.f
  let e2 := GFloat.fin 2 * f - f * f
  let ε2 := e2 / (GFloat.fin 1 - e2)
  let p := GFloat.sqrt (x * x + y * y)
  let R := GFloat.sqrt (p * p + z * z)
  let tanβ := (b * z) / (a * p) * (GFloat.fin 1 + ε2 * b / R)
  let sinβ := tanβ / GFloat.sqrt (GFloat.fin 1 + tanβ * tanβ)
  let cosβ := sinβ / tanβ
  let φ := if cosβ.isNaN then GFloat.fin 0
    else GFloat.atan2 (z + ε2 * b * sinβ * sinβ * sinβ) (p - e2 * a * cosβ * cosβ * cosβ)
  let lam := GFloat.atan2 y x
  let sinφ := GFloat.sin φ
  let cosφ := GFloat.cos φ
  let ν := a / GFloat.sqrt (GFloat.fin 1 - e2 * sinφ * sinφ)
  let h := p * cosφ + z * sinφ - (a * a / ν)
  { Lat := φ * GFloat.fin toDegrees, Lon := lam * GFloat.fin toDegrees,
    Height := h, Datum := c.Datum }

/-- Embedding of Go `LatLonEllipsoidalDatum.ConvertDatum`: geodetic datum
conversion via cartesian coordinates.  Note the source performs the full
geodetic→cartesian→geodetic round trip whatever the target datum is; only the
inner `Cartesian.ConvertDatum` has an identity short-circuit. -/
noncomputable def LatLonEllipsoidalDatum.ConvertDatum (l : LatLonEllipsoidalDatum)
    (toDatum : Datum.T) : LatLonEllipsoidalDatum :=
  let oldCartesian := l.ToCartesian
  let newCartesian := oldCartesian.ConvertDatum toDatum
  let newLatLon := newCartesian.ToLatLon
  newLatLon

/-- Ordnance Survey grid reference, as in the Go source: easting and northing
are Go `int` values (metres). -/
structure OsGridRef where
  Easting : ℤ
  Northing : ℤ

/-- Embedding of Go `OsGridRef.Valid`. -/
def OsGridRef.Valid (o : OsGridRef) : Bool :=
  decide (o.Easting ≥ 0) && decide (o.Easting ≤ 700000) &&
    decide (o.Northing ≥ 0) && decide (o.Northing ≤ 1300000)

/-- Embedding of Go `OsGridRef.assertValid`, which panics when the reference is
out of range; the panic is modelled as `Except.error`. -/
def OsGridRef.assertValid (o : OsGridRef) : Except String Unit :=
  if o.Valid then Except.ok () else Except.error "Invalid OS grid ref"

/-- Truncation toward zero, as performed by Go `math.Mod` (which computes
`x - y*Trunc(x/y)`). -/
def goTrunc (q : ℚ) : ℚ := if 0 ≤ q then (⌊q⌋ : ℤ) else (⌈q⌉ : ℤ)

/-- Model of Go `math.Mod x y`: the remainder of `x/y` whose sign agrees with
`x`. -/
def goMod (x y : ℚ) : ℚ := x - y * goTrunc (x / y)

/-- Embedding of Go `Wrap90`: constrain degrees to `-90..+90`.  The wrapping
arithmetic of the source is rational, so the function is modelled over `ℚ`. -/
def Wrap90 (degrees : ℚ) : ℚ :=
  if -90 ≤ degrees ∧ degrees ≤ 90 then degrees
  else
    let x := degrees
    let a : ℚ := 90
    let p : ℚ := 360
    4 * a / p * |goMod (goMod (x - p / 4) p + p) p - p / 2| - a

/-- Embedding of Go `Wrap180`: constrain degrees to `-180..+180`. -/
def Wrap180 (degrees : ℚ) : ℚ :=
  if -180 ≤ degrees ∧ degrees ≤ 180 then degrees
  else
    let x := degrees
    let a : ℚ := 180
    let p : ℚ := 360
    goMod (goMod (2 * a * x / p - p / 2) p + p) p - a

namespace GFloat

@[simp] theorem fin_add_fin (x y : ℝ) : fin x + fin y = fin (x + y) := rfl

@[simp] theorem fin_sub_fin (x y : ℝ) : fin x - fin y = fin (x + -y) := rfl

@[simp] theorem fin_mul_fin (x y : ℝ) : fin x * fin y = fin (x * y) := rfl

@[simp] theorem neg_fin (x : ℝ) : -(fin x) = fin (-x) := rfl

theorem fin_div_fin {x y : ℝ} (h : y ≠ 0) : fin x / fin y = fin (x / y) := by
  show div _ _ = _
  simp [div, h]

theorem fin_div_zero_pos {x : ℝ} (h : 0 < x) : fin x / fin 0 = inf true := by
  show div _ _ = _
  simp [div, h, h.ne']

theorem fin_div_zero_neg {x : ℝ} (h : x < 0) : fin x / fin 0 = inf false := by
  show div _ _ = _
  simp [div, h, h.ne, not_lt_of_lt h]

@[simp] theorem nan_div (x : GFloat) : nan / x = nan := by cases x <;> rfl

@[simp] theorem nan_mul (x : GFloat) : nan * x = nan := by cases x <;> rfl

@[simp] theorem nan_add (x : GFloat) : nan + x = nan := by cases x <;> rfl

theorem inf_mul_fin {b : Bool} {y : ℝ} (h : 0 < y) : inf b * fin y = inf b := by
  show mul _ _ = _
  simp [mul, h, h.ne']

@[simp] theorem inf_mul_inf (b c : Bool) : inf b * inf c = inf (b = c) := rfl

@[simp] theorem fin_add_inf (x : ℝ) (b : Bool) : fin x + inf b = inf b := rfl

@[simp] theorem sqrt_inf_true : sqrt (inf true) = inf true := rfl

@[simp] theorem sqrt_nan : sqrt nan = nan := rfl

theorem sqrt_fin {x : ℝ} (h : 0 ≤ x) : sqrt (fin x) = fin (Real.sqrt x) := by
  simp [sqrt, not_lt_of_le h]

@[simp] theorem inf_div_inf (b c : Bool) : inf b / inf c = nan := rfl

@[simp] theorem sin_fin (x : ℝ) : sin (fin x) = fin (Real.sin x) := rfl

@[simp] theorem cos_fin (x : ℝ) : cos (fin x) = fin (Real.cos x) := rfl

@[simp] theorem isNaN_nan : isNaN nan = true := rfl

@[simp] theorem isNaN_fin (x : ℝ) : isNaN (fin x) = false := rfl

@[simp] theorem isNaN_inf (b : Bool) : isNaN (inf b) = false := rfl

@[simp] theorem fin_injEq (x y : ℝ) : fin x = fin y ↔ x = y := by
  constructor
  · intro h; injection h
  · intro h; rw [h]

end GFloat

/-- C7: `OsGridRef.Valid` returns true exactly when `0 ≤ Easting ≤ 700000` and
`0 ≤ Northing ≤ 1300000`; `{0,0}` and `{700000,1300000}` are valid, and any
reference with `Easting = 700001` or `Northing = 1300001` is invalid. -/
theorem valid_iff_in_extent :
    (∀ o : OsGridRef, o.Valid = true ↔
      (0 ≤ o.Easting ∧ o.Easting ≤ 700000 ∧ 0 ≤ o.Northing ∧ o.Northing ≤ 1300000)) ∧
    OsGridRef.Valid ⟨0, 0⟩ = true ∧
    OsGridRef.Valid ⟨700000, 1300000⟩ = true ∧
    (∀ n : ℤ, OsGridRef.Valid ⟨700001, n⟩ = false) ∧
    (∀ e : ℤ, OsGridRef.Valid ⟨e, 1300001⟩ = false) := by
  refine ⟨fun o => ?_, rfl, rfl, fun n => ?_, fun e => ?_⟩
  · simp [OsGridRef.Valid, and_assoc]
  · simp [OsGridRef.Valid]
  · simp [OsGridRef.Valid]

/-- C10: `Wrap90` is the identity on every value of `[-90, 90]` and `Wrap180`
is the identity on every value of `[-180, 180]`; in particular
`Wrap180 (-180) = -180` (the in-range branch returns the argument without any
arithmetic being applied). -/
theorem wrap_identity_in_range :
    (∀ x : ℚ, -90 ≤ x → x ≤ 90 → Wrap90 x = x) ∧
    (∀ x : ℚ, -180 ≤ x → x ≤ 180 → Wrap180 x = x) ∧
    Wrap180 (-180) = -180 := by
  refine ⟨fun x h1 h2 => ?_, fun x h1 h2 => ?_, ?_⟩
  · simp [Wrap90, h1, h2]
  · simp [Wrap180, h1, h2]
  · simp [Wrap180]

/-- Witness for `wrap_identity_in_range` at the concrete inputs `45` and
`-180`. -/
theorem wrap_identity_in_range_witness : Wrap90 45 = 45 ∧ Wrap180 (-180) = -180 :=
  ⟨wrap_identity_in_range.1 45 (by norm_num) (by norm_num),
   wrap_identity_in_range.2.2⟩

/-- C8 (failing input): the out-of-range reference `{700001, 0}` is flagged by
`Valid`/`assertValid`, but `OsGridRef.ToLatLon` never consults either of them —
the only call sites of `assertValid` in the package are none at all, so
`ToLatLon` silently computes numeric output for this input. -/
theorem toLatLon_out_of_range_not_reported :
    OsGridRef.Valid ⟨700001, 0⟩ = false ∧
    OsGridRef.assertValid ⟨700001, 0⟩ = Except.error "Invalid OS grid ref" := by
  constructor
  · rfl
  · rfl

/-- C6: `applyTransform` returns exactly the translated, scaled,
small-angle-rotated coordinates of the claim, with `s` normalised from ppm via
`s/1e6 + 1` and each rotation normalised from arc-seconds to radians via
division by 3600 and multiplication by `π/180`. -/
theorem applyTransform_formula (x y z : ℝ) (d : Datum) (t : Fin 7 → ℝ) :
    Cartesian.applyTransform ⟨GFloat.fin x, GFloat.fin y, GFloat.fin z, d⟩ t =
      ⟨GFloat.fin (t 0 + x * (t 3 / 1e6 + 1) - y * ((t 6 / 3600) * (Real.pi / 180)) +
          z * ((t 5 / 3600) * (Real.pi / 180))),
       GFloat.fin (t 1 + x * ((t 6 / 3600) * (Real.pi / 180)) + y * (t 3 / 1e6 + 1) -
          z * ((t 4 / 3600) * (Real.pi / 180))),
       GFloat.fin (t 2 - x * ((t 5 / 3600) * (Real.pi / 180)) + y * ((t 4 / 3600) * (Real.pi / 180)) +
          z * (t 3 / 1e6 + 1)),
       zeroDatum⟩ := by
  simp only [Cartesian.applyTransform, toRadians]
  rw [@GFloat.fin_div_fin (t 3) 1e6 (by norm_num),
    @GFloat.fin_div_fin (t 4) 3600 (by norm_num),
    @GFloat.fin_div_fin (t 5) 3600 (by norm_num),
    @GFloat.fin_div_fin (t 6) 3600 (by norm_num)]
  simp only [GFloat.fin_add_fin, GFloat.fin_mul_fin, GFloat.fin_sub_fin, Cartesian.mk.injEq,
    GFloat.fin_injEq]
  refine ⟨by ring, by ring, by ring, trivial⟩

/-- Converting a cartesian point whose datum is not named WGS84 to `WGS84`
produces a point whose datum tag is exactly `WGS84`. -/
theorem convertDatum_to_hub_datum (c : Cartesian) (h : c.Datum.Name ≠ "WGS84") :
    (c.ConvertDatum WGS84).Datum = WGS84 := by
  rw [Cartesian.ConvertDatum]
  simp [show WGS84.Name = "WGS84" from rfl, h]

/-- C3: `Cartesian.ConvertDatum` routes every conversion through WGS84: from
WGS84 it applies the target's stored parameters forward; to WGS84 it applies
the element-wise negation of the source datum's parameters; and between two
non-hub datums it equals converting to WGS84 first and then applying the
target's forward parameters — there is no direct pairwise transform. -/
theorem convertDatum_routes_through_hub :
    (∀ (c : Cartesian) (d : Datum), c.Datum.Name ≠ d.Name → c.Datum.Name = "WGS84" →
      c.ConvertDatum d = { Cartesian.applyTransform c d.Transform with Datum := d }) ∧
    (∀ (c : Cartesian) (d : Datum), c.Datum.Name ≠ d.Name → d.Name = "WGS84" →
      c.ConvertDatum d =
        { Cartesian.applyTransform c (fun i => -(c.Datum.Transform i)) with Datum := d }) ∧
    (∀ (c : Cartesian) (d : Datum), c.Datum.Name ≠ d.Name → c.Datum.Name ≠ "WGS84" →
      d.Name ≠ "WGS84" →
      c.ConvertDatum d = (c.ConvertDatum WGS84).ConvertDatum d ∧
        c.ConvertDatum d =
          { Cartesian.applyTransform (c.ConvertDatum WGS84) d.Transform with Datum := d }) := by
  refine ⟨fun c d h1 h2 => ?_, fun c d h1 h2 => ?_, fun c d h1 h2 h3 => ?_⟩
  · have h1a : "WGS84" ≠ d.Name := h2 ▸ h1
    rw [Cartesian.ConvertDatum]
    simp [h1, h2, h1a]
  · rw [Cartesian.ConvertDatum]
    have h4 : c.Datum.Name ≠ "WGS84" := by
      intro hc
      exact h1 (hc.trans h2.symm)
    simp [h1, h2, h4]
  · have hD : (c.ConvertDatum WGS84).Datum = WGS84 := convertDatum_to_hub_datum c h2
    constructor
    · conv_lhs => rw [Cartesian.ConvertDatum]
      conv_rhs => rw [Cartesian.ConvertDatum]
      simp [h1, h2, h3, hD, Ne.symm h3, show WGS84.Name = "WGS84" from rfl]
    · rw [Cartesian.ConvertDatum]
      simp [h1, h2, h3]

/-- Witness for `convertDatum_routes_through_hub` at the concrete point
`(1, 2, 3)` with the concrete datums WGS84, OSGB36 and Irl1975. -/
theorem convertDatum_routes_through_hub_witness :
    Cartesian.ConvertDatum ⟨GFloat.fin 1, GFloat.fin 2, GFloat.fin 3, WGS84⟩ OSGB36 =
      { Cartesian.applyTransform ⟨GFloat.fin 1, GFloat.fin 2, GFloat.fin 3, WGS84⟩
          OSGB36.Transform with Datum := OSGB36 } ∧
    Cartesian.ConvertDatum ⟨GFloat.fin 1, GFloat.fin 2, GFloat.fin 3, OSGB36⟩ WGS84 =
      { Cartesian.applyTransform ⟨GFloat.fin 1, GFloat.fin 2, GFloat.fin 3, OSGB36⟩
          (fun i => -(OSGB36.Transform i)) with Datum := WGS84 } ∧
    Cartesian.ConvertDatum ⟨GFloat.fin 1, GFloat.fin 2, GFloat.fin 3, OSGB36⟩ Irl1975 =
      Cartesian.ConvertDatum
        (Cartesian.ConvertDatum ⟨GFloat.fin 1, GFloat.fin 2, GFloat.fin 3, OSGB36⟩ WGS84)
        Irl1975 :=
  ⟨convertDatum_routes_through_hub.1 _ _ (by decide) rfl,
   convertDatum_routes_through_hub.2.1 _ _ (by decide) rfl,
   (convertDatum_routes_through_hub.2.2 _ _ (by decide) (by decide) (by decide)).1⟩

/-- Structural facts about same-datum conversion, independent of the numeric
semantics: `Cartesian.ConvertDatum` returns its argument unchanged when source
and target datum carry the same name, while `LatLonEllipsoidalDatum.ConvertDatum`
to the point's own datum has no such short-circuit — it always re-derives the
point through the full geodetic→cartesian→geodetic round trip. -/
theorem convertDatum_same_datum :
    (∀ (c : Cartesian) (d : Datum), c.Datum.Name = d.Name → c.ConvertDatum d = c) ∧
    (∀ p : LatLonEllipsoidalDatum, p.ConvertDatum p.Datum = p.ToCartesian.ToLatLon) := by
  constructor
  · intro c d h
    rw [Cartesian.ConvertDatum]
    simp [h]
  · intro p
    have hD : p.ToCartesian.Datum = p.Datum := rfl
    rw [LatLonEllipsoidalDatum.ConvertDatum]
    rw [Cartesian.ConvertDatum]
    simp [hD]

/-- Instance of `convertDatum_same_datum` at a concrete cartesian point on
WGS84. -/
theorem convertDatum_same_datum_witness :
    Cartesian.ConvertDatum ⟨GFloat.fin 1, GFloat.fin 2, GFloat.fin 3, WGS84⟩ WGS84 =
      ⟨GFloat.fin 1, GFloat.fin 2, GFloat.fin 3, WGS84⟩ :=
  convertDatum_same_datum.1 _ _ rfl

/-- Division of a nonzero finite value by (unsigned) zero produces the signed
infinity matching the numerator's sign. -/
theorem GFloat.fin_div_zero {x : ℝ} (h : x ≠ 0) :
    GFloat.fin x / GFloat.fin 0 = GFloat.inf (decide (0 < x)) := by
  show GFloat.div _ _ = _
  rcases lt_or_gt_of_ne h with hx | hx
  · simp [GFloat.div, h, not_lt_of_lt hx, hx]
  · simp [GFloat.div, h, hx]

/-- Go `math.Atan2(0, +0)` is `0`. -/
theorem GFloat.atan2_zero_zero : GFloat.atan2 (GFloat.fin 0) (GFloat.fin 0) = GFloat.fin 0 := by
  simp [GFloat.atan2]

/-- Evaluation of `Cartesian.ToLatLon` on a point of the polar axis (`X = 0`,
`Y = 0`, `Z ≠ 0`) over any ellipsoid satisfying the spec's shape invariants:
`tanβ` becomes a signed infinity, `sinβ = ∞/∞` and `cosβ` become NaN, so the
`IsNaN` guard leaves the latitude at `0` — not `±90°` — and the longitude is
`Atan2(0, 0) = 0`; the height evaluates to `-a`.  No field is NaN. -/
theorem toLatLon_polar_axis (d : Datum) (ha : 0 < d.Ellipsoid.a) (hb : 0 < d.Ellipsoid.b)
    (hf0 : 0 ≤ d.Ellipsoid.f) (hf1 : d.Ellipsoid.f < 1) (z : ℝ) (hz : z ≠ 0) :
    Cartesian.ToLatLon ⟨GFloat.fin 0, GFloat.fin 0, GFloat.fin z, d⟩ =
      ⟨GFloat.fin 0, GFloat.fin 0, GFloat.fin (-d.Ellipsoid.a), d⟩ := by
  have ha0 : d.Ellipsoid.a ≠ 0 := ha.ne'
  have hbz : d.Ellipsoid.b * z ≠ 0 := mul_ne_zero hb.ne' hz
  have habs : |z| ≠ 0 := abs_ne_zero.mpr hz
  have hE0 : (0 : ℝ) ≤ 2 * d.Ellipsoid.f + -(d.Ellipsoid.f * d.Ellipsoid.f) := by nlinarith
  have hden : (1 : ℝ) + -(2 * d.Ellipsoid.f + -(d.Ellipsoid.f * d.Ellipsoid.f)) ≠ 0 := by
    nlinarith [sq_nonneg (1 - d.Ellipsoid.f)]
  have hdenpos : (0 : ℝ) < 1 + -(2 * d.Ellipsoid.f + -(d.Ellipsoid.f * d.Ellipsoid.f)) := by
    nlinarith [sq_nonneg (1 - d.Ellipsoid.f)]
  have hM : (0 : ℝ) <
      1 + (2 * d.Ellipsoid.f + -(d.Ellipsoid.f * d.Ellipsoid.f)) /
        (1 + -(2 * d.Ellipsoid.f + -(d.Ellipsoid.f * d.Ellipsoid.f))) * d.Ellipsoid.b / |z| := by
    have h1 : (0 : ℝ) ≤ (2 * d.Ellipsoid.f + -(d.Ellipsoid.f * d.Ellipsoid.f)) /
        (1 + -(2 * d.Ellipsoid.f + -(d.Ellipsoid.f * d.Ellipsoid.f))) * d.Ellipsoid.b / |z| :=
      div_nonneg (mul_nonneg (div_nonneg hE0 hdenpos.le) hb.le) (abs_nonneg z)
    linarith
  simp only [Cartesian.ToLatLon, GFloat.fin_mul_fin, GFloat.fin_add_fin, GFloat.fin_sub_fin,
    mul_zero, zero_mul, add_zero, zero_add, neg_zero, GFloat.sqrt_fin, le_refl,
    mul_self_nonneg, zero_le_one, Real.sqrt_zero, Real.sqrt_one, Real.sqrt_mul_self_eq_abs,
    GFloat.fin_div_fin hden, GFloat.fin_div_fin habs, GFloat.fin_div_fin one_ne_zero,
    GFloat.fin_div_zero hbz, GFloat.inf_mul_fin hM, GFloat.inf_mul_inf,
    eq_self_iff_true, decide_True, GFloat.fin_add_inf, GFloat.sqrt_inf_true,
    GFloat.inf_div_inf, GFloat.nan_div, GFloat.isNaN_nan, if_true,
    GFloat.atan2_zero_zero, GFloat.sin_fin, GFloat.cos_fin, Real.sin_zero, Real.cos_zero,
    GFloat.fin_div_fin ha0, div_one, mul_one, one_mul]
  rw [mul_div_assoc, div_self ha0, mul_one]

/-- C5 (amended): on a cartesian point lying exactly on the polar axis
(`X = 0`, `Y = 0`, `Z ≠ 0`, ellipsoid satisfying the documented shape
invariants), `Cartesian.ToLatLon` special-cases the degenerate geometry via its
NaN guard, returning latitude `0` — not `±90°` as claimed — and longitude `0`,
with no NaN in any field of the result. -/
theorem toLatLon_polar_special_case (d : Datum) (ha : 0 < d.Ellipsoid.a)
    (hb : 0 < d.Ellipsoid.b) (hf0 : 0 ≤ d.Ellipsoid.f) (hf1 : d.Ellipsoid.f < 1)
    (z : ℝ) (hz : z ≠ 0) :
    Cartesian.ToLatLon ⟨GFloat.fin 0, GFloat.fin 0, GFloat.fin z, d⟩ =
      ⟨GFloat.fin 0, GFloat.fin 0, GFloat.fin (-d.Ellipsoid.a), d⟩ ∧
    (Cartesian.ToLatLon ⟨GFloat.fin 0, GFloat.fin 0, GFloat.fin z, d⟩).Lat.isNaN = false ∧
    (Cartesian.ToLatLon ⟨GFloat.fin 0, GFloat.fin 0, GFloat.fin z, d⟩).Lon.isNaN = false ∧
    (Cartesian.ToLatLon ⟨GFloat.fin 0, GFloat.fin 0, GFloat.fin z, d⟩).Height.isNaN = false := by
  have h := toLatLon_polar_axis d ha hb hf0 hf1 z hz
  refine ⟨h, ?_, ?_, ?_⟩ <;> rw [h] <;> rfl

/-- Witness for `toLatLon_polar_special_case` on WGS84 with `z = 1`. -/
theorem toLatLon_polar_special_case_witness :
    Cartesian.ToLatLon ⟨GFloat.fin 0, GFloat.fin 0, GFloat.fin 1, WGS84⟩ =
      ⟨GFloat.fin 0, GFloat.fin 0, GFloat.fin (-WGS84.Ellipsoid.a), WGS84⟩ :=
  (toLatLon_polar_special_case WGS84 (by norm_num [WGS84]) (by norm_num [WGS84])
    (by norm_num [WGS84]) (by norm_num [WGS84]) 1 one_ne_zero).1

/-- C5 (counterexample): at the concrete polar-axis point `(0, 0, 1)` on WGS84
(`Z = 1 > 0`), the code returns latitude `0`, not the `+90°` the claim
requires. -/
theorem toLatLon_polar_not_ninety :
    (Cartesian.ToLatLon ⟨GFloat.fin 0, GFloat.fin 0, GFloat.fin 1, WGS84⟩).Lat = GFloat.fin 0 ∧
    (GFloat.fin (0 : ℝ) ≠ GFloat.fin 90) := by
  constructor
  · rw [toLatLon_polar_axis WGS84 (by norm_num [WGS84]) (by norm_num [WGS84])
      (by norm_num [WGS84]) (by norm_num [WGS84]) 1 one_ne_zero]
  · simp
